import Mathlib

/-
Shallow embedding of the Strategy & Risk Decision Engine of the
3x-trading-bot repository (src/backtest.py and
src/.history/bot_20250908021956.py).

Numeric values are modelled as exact rationals (ℚ).  A pandas NaN
(undefined indicator) is modelled as `none : Option ℚ`; a comparison
against NaN is false, matching numpy semantics.  Timestamps are hours
as naturals (the engine runs on 1h candles and the pause is 24h).
-/

namespace CryptoBacktest

/-! ### Configuration constants (CryptoBacktest.__init__, backtest.py lines 21-48) -/

def initial_balance : ℚ := 1000

def leverage : ℚ := 3

def risk_per_trade : ℚ := 1/100

def rsi_oversold : ℚ := 30

def rsi_overbought : ℚ := 60

def volume_multiplier : ℚ := 9/5

def tp_percent : ℚ := 6/100

def sl_percent : ℚ := 3/100

def trailing_trigger : ℚ := 3/100

def trailing_distance : ℚ := 15/1000

def max_consecutive_losses : ℕ := 3

def commission_rate : ℚ := 4/10000

/-- timedelta(hours=24) used at backtest.py line 230 (pause_hours in the live bot). -/
def pause_hours : ℕ := 24

/-! ### Data model -/

/-- One row of the indicator-enriched dataframe: a candle together with
the indicator columns the decision logic reads.  `rsi` and
`volume_ratio` are `none` when the pandas value is NaN. -/
structure Row where
  timestamp : ℕ
  close : ℚ
  rsi : Option ℚ
  volume_ratio : Option ℚ
deriving DecidableEq, Repr

/-- NaN-aware `<`: a NaN compared to anything is false. -/
def nanLt (x : Option ℚ) (c : ℚ) : Bool :=
  match x with
  | none => false
  | some v => decide (v < c)

/-- NaN-aware `>`: a NaN compared to anything is false. -/
def nanGt (x : Option ℚ) (c : ℚ) : Bool :=
  match x with
  | none => false
  | some v => decide (c < v)

/-! ### Indicator computation (calculate_indicators, backtest.py lines 103-115)

Only the volume columns are computed here; the RSI column is an
external collaborator (talib) and enters the model as given per-row
data. -/

/-- `df['volume_ma20'] = df['volume'].rolling(window=20).mean()` at
index `i`: NaN (none) until 20 observations are available. -/
def volume_ma20 (volumes : List ℚ) (i : ℕ) : Option ℚ :=
  if i + 1 < 20 then none
  else some (((volumes.drop (i + 1 - 20)).take 20).sum / 20)

/-- `df['volume_ratio'] = df['volume'] / df['volume_ma20']` at index `i`;
NaN propagates. -/
def volume_ratio_col (volumes : List ℚ) (i : ℕ) : Option ℚ :=
  match volume_ma20 volumes i with
  | none => none
  | some m => some (volumes.getD i 0 / m)

/-! ### Signal evaluation (backtest.py lines 117-147) -/

/-- check_entry_signal (backtest.py lines 117-122). -/
def check_entry_signal (row : Row) : Bool :=
  let rsi_condition := nanLt row.rsi rsi_oversold
  let volume_condition := nanGt row.volume_ratio volume_multiplier
  rsi_condition && volume_condition && !row.rsi.isNone

/-- check_exit_signal (backtest.py lines 124-147): returns
(should_exit, reason, exit_price). -/
def check_exit_signal (row : Row) (entry_price highest_price : ℚ) :
    Bool × String × ℚ :=
  let current_price := row.close
  if nanGt row.rsi rsi_overbought then (true, "RSI_EXIT", current_price)
  else
    let profit_percent := (current_price - entry_price) / entry_price
    if tp_percent ≤ profit_percent then (true, "TP", entry_price * (1 + tp_percent))
    else if profit_percent ≤ -sl_percent then (true, "SL", entry_price * (1 - sl_percent))
    else if trailing_trigger ≤ profit_percent then
      let trailing_stop := highest_price * (1 - trailing_distance)
      if current_price ≤ trailing_stop then (true, "TRAILING_SL", trailing_stop)
      else (false, "", current_price)
    else (false, "", current_price)

/-- calculate_position_size (backtest.py lines 149-160): the stop
distance is derived from sl_percent, and the USDT notional is divided
by entry_price to get base units before leverage. -/
def calculate_position_size (balance entry_price : ℚ) : ℚ :=
  let risk_amount := balance * risk_per_trade
  let stop_distance := entry_price * sl_percent
  let position_size_usdt := risk_amount / (stop_distance / entry_price)
  let position_size_base := position_size_usdt / entry_price
  position_size_base * leverage

/-! ### PnL and commission model (backtest.py lines 211-217) -/

def pnl_percent (entry_price exit_price : ℚ) : ℚ :=
  (exit_price - entry_price) / entry_price

def pnl_usdt (entry_price exit_price position_size : ℚ) : ℚ :=
  pnl_percent entry_price exit_price * position_size * entry_price

def commission (entry_price exit_price position_size : ℚ) : ℚ :=
  (entry_price + exit_price) * position_size * commission_rate

def net_pnl (entry_price exit_price position_size : ℚ) : ℚ :=
  pnl_usdt entry_price exit_price position_size -
    commission entry_price exit_price position_size

/-! ### The replay loop (run_backtest_symbol, backtest.py lines 162-253) -/

/-- One recorded trade (the rounding of the logged pnl fields to two
decimals is display-only and omitted; the balance update uses the
exact value). -/
structure Trade where
  timestamp : ℕ
  entry_price : ℚ
  exit_price : ℚ
  quantity : ℚ
  pnl : ℚ
  reason : String
deriving DecidableEq, Repr

/-- The loop-local mutable state of run_backtest_symbol
(backtest.py lines 166-174).  Note the state, including
consecutive_losses and paused_until, is local to one symbol's run. -/
structure BTState where
  balance : ℚ
  in_position : Bool
  entry_price : ℚ
  entry_time : ℕ
  position_size : ℚ
  highest_price : ℚ
  consecutive_losses : ℕ
  paused_until : Option ℕ
  trades : List Trade
deriving DecidableEq, Repr

def initState : BTState :=
  ⟨initial_balance, false, 0, 0, 0, 0, 0, none, []⟩

/-- Entry branch (backtest.py lines 191-198). -/
def enterUpdate (s : BTState) (row : Row) : BTState :=
  { s with in_position := true
           entry_price := row.close
           entry_time := row.timestamp
           position_size := calculate_position_size s.balance row.close
           highest_price := row.close }

/-- Close branch (backtest.py lines 210-250). -/
def closeUpdate (s : BTState) (row : Row) (reason : String) (exit_price : ℚ) :
    BTState :=
  let np := net_pnl s.entry_price exit_price s.position_size
  let cl := if np < 0 then s.consecutive_losses + 1 else 0
  let paused :=
    if max_consecutive_losses ≤ cl then some (row.timestamp + pause_hours)
    else s.paused_until
  { s with balance := s.balance + np
           consecutive_losses := cl
           paused_until := paused
           in_position := false
           trades := s.trades ++
             [⟨row.timestamp, s.entry_price, exit_price, s.position_size, np, reason⟩] }

/-- Body of the loop after the pause handling (backtest.py lines 187-250):
skip on NaN RSI, otherwise entry check or highest-price update plus
exit check. -/
def stepCore (s : BTState) (row : Row) : BTState :=
  if row.rsi.isNone then s
  else if s.in_position = false then
    if check_entry_signal row then enterUpdate s row else s
  else
    let highest := if s.highest_price < row.close then row.close else s.highest_price
    let s1 := { s with highest_price := highest }
    let r := check_exit_signal row s.entry_price highest
    if r.1 then closeUpdate s1 row r.2.1 r.2.2 else s1

/-- One full loop iteration (backtest.py lines 176-250).  The pause
handling (lines 180-185) runs first: while paused the whole iteration
is skipped; at the first candle at or past paused_until the pause is
cleared, the loss counter reset, and the iteration continues. -/
def step (s : BTState) (row : Row) : BTState :=
  match s.paused_until with
  | some t =>
      if row.timestamp < t then s
      else stepCore { s with paused_until := none, consecutive_losses := 0 } row
  | none => stepCore s row

/-- The state after replaying the whole dataframe of one symbol. -/
def runState (df : List Row) : BTState :=
  df.foldl step initState

/-- run_backtest_symbol: the trade list produced by one symbol's run. -/
def run_backtest_symbol (df : List Row) : List Trade :=
  (runState df).trades

/-- run_full_backtest (backtest.py lines 255-279): each symbol is
backtested independently with run_backtest_symbol on its own data. -/
def run_full_backtest (dfs : List (List Row)) : List (List Trade) :=
  dfs.map run_backtest_symbol

end CryptoBacktest

namespace CryptoTradingBot

/-! ### Live bot (src/.history/bot_20250908021956.py) -/

open CryptoBacktest in
/-- calculate_position_size (bot lines 176-201): takes an explicit
stop price and applies a symbol-dependent minimum size floor. -/
def calculate_position_size (balance entry_price stop_price min_size : ℚ) : ℚ :=
  let risk_amount := balance * risk_per_trade
  let stop_distance := |entry_price - stop_price|
  let position_size_usdt := risk_amount / (stop_distance / entry_price)
  let position_size_base := position_size_usdt / entry_price
  let leveraged_position := position_size_base * leverage
  max leveraged_position min_size

/-- The live bot's open-position record (the fields check_exit_conditions
reads and writes). -/
structure BotPosition where
  entry_price : ℚ
  stop_loss : ℚ
  highest_price : ℚ
  trailing_active : Bool
deriving DecidableEq, Repr

open CryptoBacktest in
/-- check_exit_conditions (bot lines 313-359): RSI exit, then trailing
activation (which raises only the broker-side stop, not the in-memory
stop_loss field), then on a new high a ratchet of stop_loss applied
only when strictly greater. -/
def check_exit_conditions (p : BotPosition) (current_price current_rsi : ℚ) :
    Bool × String × BotPosition :=
  if rsi_overbought < current_rsi then (true, "RSI_EXIT", p)
  else
    let profit_percent := (current_price - p.entry_price) / p.entry_price
    let p1 :=
      if trailing_trigger ≤ profit_percent ∧ p.trailing_active = false then
        { p with trailing_active := true }
      else p
    let p2 :=
      if p1.highest_price < current_price then
        let p3 := { p1 with highest_price := current_price }
        if p3.trailing_active then
          let new_stop := current_price * (1 - trailing_distance)
          if p3.stop_loss < new_stop then { p3 with stop_loss := new_stop } else p3
        else p3
      else p1
    (false, "", p2)

/-- Iterate check_exit_conditions over successive (price, rsi) candles,
keeping the evolving position record. -/
def botRun (p : BotPosition) (l : List (ℚ × ℚ)) : BotPosition :=
  l.foldl (fun q pr => (check_exit_conditions q pr.1 pr.2).2.2) p

/-- The bot's process-wide risk state (bot lines 44-47): one counter
and one pause deadline for the whole process, not per symbol. -/
structure BotRiskState where
  consecutive_losses : ℕ
  paused_until : Option ℕ
deriving DecidableEq, Repr

open CryptoBacktest in
/-- Consecutive-loss tracking on close (bot lines 442-453): any
symbol's losing close mutates the single shared state. -/
def close_risk_update (st : BotRiskState) (now : ℕ) (np : ℚ) : BotRiskState :=
  let cl := if np < 0 then st.consecutive_losses + 1 else 0
  let paused :=
    if max_consecutive_losses ≤ cl then some (now + pause_hours)
    else st.paused_until
  ⟨cl, paused⟩

/-- is_paused (bot lines 500-509): clears the pause and resets the
counter once the deadline has passed. -/
def is_paused (st : BotRiskState) (now : ℕ) : Bool × BotRiskState :=
  match st.paused_until with
  | some t => if now < t then (true, st) else (false, ⟨0, none⟩)
  | none => (false, st)

end CryptoTradingBot

/-! ## Claim theorems -/

namespace CryptoBacktest

/-- C1 counterexample: at balance=1000, risk=0.01, leverage=3,
entry=100, stop=97 both sizers return 10, not the claimed 1000. -/
theorem c1_sizer_counterexample :
    CryptoTradingBot.calculate_position_size 1000 100 97 (1/1000) = 10 ∧
    CryptoBacktest.calculate_position_size 1000 100 = 10 ∧
    (10 : ℚ) ≠ 1000 := by
  refine ⟨?_, ?_, by norm_num⟩
  · norm_num [CryptoTradingBot.calculate_position_size, risk_per_trade, leverage]
  · norm_num [CryptoBacktest.calculate_position_size, risk_per_trade, sl_percent, leverage]

/-- C1 amended: the sizer divides the USDT notional by entry_price to
obtain base units before applying leverage, so for valid inputs it
returns max(balance × risk_fraction × leverage / stop_distance,
min_size); the result before the floor is positive, and at the spec's
example inputs the sizer returns 10. -/
theorem c1_sizer_base_units (b e s m : ℚ) (hb : 0 < b) (he : 0 < e) (hs : s ≠ e) :
    CryptoTradingBot.calculate_position_size b e s m =
      max (b * risk_per_trade * leverage / |e - s|) m ∧
    0 < b * risk_per_trade * leverage / |e - s| ∧
    CryptoBacktest.calculate_position_size b e =
      b * risk_per_trade * leverage / (e * sl_percent) := by
  have hes : e - s ≠ 0 := sub_ne_zero.mpr (Ne.symm hs)
  have habs : (0 : ℚ) < |e - s| := abs_pos.mpr hes
  have habs' : |e - s| ≠ 0 := ne_of_gt habs
  have he' : e ≠ 0 := ne_of_gt he
  refine ⟨?_, ?_, ?_⟩
  · have harg : b * risk_per_trade / (|e - s| / e) / e * leverage =
        b * risk_per_trade * leverage / |e - s| := by
      field_simp
      ring
    show max (b * risk_per_trade / (|e - s| / e) / e * leverage) m = _
    rw [harg]
  · apply div_pos ?_ habs
    have h2 : (0 : ℚ) < risk_per_trade := by norm_num [risk_per_trade]
    have h3 : (0 : ℚ) < leverage := by norm_num [leverage]
    positivity
  · show b * risk_per_trade / (e * sl_percent / e) / e * leverage = _
    have h0 : e * sl_percent / e = sl_percent := by
      rw [mul_comm, mul_div_assoc, div_self he', mul_one]
    rw [h0, div_div, div_mul_eq_mul_div, mul_comm sl_percent e]

/-- C1 witness for c1_sizer_base_units at the spec's example inputs. -/
theorem c1_sizer_base_units_witness :
    CryptoTradingBot.calculate_position_size 1000 100 97 (1/1000) =
      max (1000 * risk_per_trade * leverage / |(100 : ℚ) - 97|) (1/1000) :=
  (c1_sizer_base_units 1000 100 97 (1/1000) (by norm_num) (by norm_num) (by norm_num)).1

/-- C7: pnl_usdt equals (exit − entry) × quantity, commission is
(entry + exit) × quantity × taker fee, net pnl their difference; at
entry=100, exit=106, quantity=1 the commission is 0.0824 = 103/1250
and the net pnl 5.9176 = 7397/1250. -/
theorem c7_pnl_commission (e x q : ℚ) (he : e ≠ 0) :
    pnl_usdt e x q = (x - e) * q ∧
    commission e x q = (e + x) * q * commission_rate ∧
    net_pnl e x q = (x - e) * q - (e + x) * q * commission_rate ∧
    commission 100 106 1 = 103/1250 ∧
    net_pnl 100 106 1 = 7397/1250 := by
  have h1 : pnl_usdt e x q = (x - e) * q := by
    unfold pnl_usdt pnl_percent
    field_simp
  refine ⟨h1, rfl, ?_, ?_, ?_⟩
  · unfold net_pnl commission
    rw [h1]
  · norm_num [CryptoBacktest.commission, commission_rate]
  · norm_num [net_pnl, CryptoBacktest.commission, pnl_usdt, pnl_percent,
      commission_rate]

/-- C7 witness at the spec's example inputs. -/
theorem c7_pnl_commission_witness :
    pnl_usdt 100 106 1 = (106 - 100) * 1 ∧
    commission 100 106 1 = (100 + 106) * 1 * commission_rate ∧
    net_pnl 100 106 1 = (106 - 100) * 1 - (100 + 106) * 1 * commission_rate ∧
    commission 100 106 1 = 103/1250 ∧
    net_pnl 100 106 1 = 7397/1250 :=
  c7_pnl_commission 100 106 1 (by norm_num)

/-- C10: on any of the first 19 candles the volume_ratio column is
NaN because the 20-period volume moving average lacks a full window,
so the entry signal is false regardless of the oscillator value. -/
theorem c10_volume_warmup (volumes : List ℚ) (i : ℕ) (hi : i < 19)
    (t : ℕ) (c : ℚ) (r : Option ℚ) :
    volume_ratio_col volumes i = none ∧
    check_entry_signal ⟨t, c, r, volume_ratio_col volumes i⟩ = false := by
  have h1 : volume_ratio_col volumes i = none := by
    unfold volume_ratio_col volume_ma20
    rw [if_pos (by omega)]
  refine ⟨h1, ?_⟩
  simp [check_entry_signal, h1, nanGt]

/-- C10 witness: candle index 14, RSI already defined and oversold,
yet no entry because the volume average window is not full. -/
theorem c10_volume_warmup_witness :
    volume_ratio_col (List.replicate 20 (1:ℚ)) 14 = none ∧
    check_entry_signal
      ⟨14, 100, some 25, volume_ratio_col (List.replicate 20 (1:ℚ)) 14⟩ = false :=
  c10_volume_warmup (List.replicate 20 (1:ℚ)) 14 (by norm_num) 14 100 (some 25)

/-- C9: a TRAILING_SL exit always has exit price strictly above the
entry price (positive gross PnL); indeed the exit price is at least
entry × (1 + trailing_trigger). -/
theorem c9_trailing_exit_profitable (row : Row) (e h ep : ℚ) (he : 0 < e)
    (hfire : check_exit_signal row e h = (true, "TRAILING_SL", ep)) :
    e < ep ∧ e * (1 + trailing_trigger) ≤ ep := by
  simp only [check_exit_signal] at hfire
  split_ifs at hfire with h1 h2 h3 h4 h5
  · simp at hfire
  · simp at hfire
  · simp at hfire
  · simp only [Prod.mk.injEq] at hfire
    have hep : h * (1 - trailing_distance) = ep := hfire.2.2
    have hclose : row.close ≤ ep := hep ▸ h5
    rw [le_div_iff₀ he] at h4
    have htr : trailing_trigger = 3/100 := rfl
    rw [htr] at h4 ⊢
    constructor <;> linarith
  · simp at hfire
  · simp at hfire

/-- C9 witness: a concrete firing of TRAILING_SL with entry 100,
highest 110, exit level 108.35. -/
theorem c9_trailing_exit_profitable_witness :
    (100 : ℚ) < 2167/20 ∧ (100 : ℚ) * (1 + trailing_trigger) ≤ 2167/20 :=
  c9_trailing_exit_profitable ⟨0, 104, some 50, none⟩ 100 110 (2167/20)
    (by norm_num)
    (by norm_num [check_exit_signal, nanGt, rsi_overbought, tp_percent,
      sl_percent, trailing_trigger, trailing_distance])

end CryptoBacktest

namespace CryptoBacktest

/-- C4: exit conditions are checked in the fixed order RSI_EXIT, TP,
SL (then TRAILING_SL), first match winning; a candle satisfying both
the RSI-exit and TP conditions yields reason RSI_EXIT; TP and SL
report the simulated fill prices entry × (1 ± pct), not the candle
close. -/
theorem c4_exit_priority (row : Row) (e h : ℚ) :
    (nanGt row.rsi rsi_overbought = true →
      check_exit_signal row e h = (true, "RSI_EXIT", row.close)) ∧
    (nanGt row.rsi rsi_overbought = true → tp_percent ≤ (row.close - e) / e →
      (check_exit_signal row e h).2.1 = "RSI_EXIT") ∧
    (nanGt row.rsi rsi_overbought = false → tp_percent ≤ (row.close - e) / e →
      check_exit_signal row e h = (true, "TP", e * (1 + tp_percent))) ∧
    (nanGt row.rsi rsi_overbought = false → ¬ tp_percent ≤ (row.close - e) / e →
      (row.close - e) / e ≤ -sl_percent →
      check_exit_signal row e h = (true, "SL", e * (1 - sl_percent))) := by
  refine ⟨?_, ?_, ?_, ?_⟩ <;> intros <;> simp [check_exit_signal, *]

/-- C4 witness: a candle with RSI 70 (> 60) and profit 10% (≥ 6%)
exits with reason RSI_EXIT at the candle close. -/
theorem c4_exit_priority_witness :
    check_exit_signal ⟨0, 110, some 70, none⟩ 100 110 = (true, "RSI_EXIT", 110) ∧
    (check_exit_signal ⟨0, 110, some 70, none⟩ 100 110).2.1 = "RSI_EXIT" :=
  ⟨(c4_exit_priority ⟨0, 110, some 70, none⟩ 100 110).1
      (by norm_num [nanGt, rsi_overbought]),
    (c4_exit_priority ⟨0, 110, some 70, none⟩ 100 110).2.1
      (by norm_num [nanGt, rsi_overbought]) (by norm_num [tp_percent])⟩

/-- C2 counterexample: entry 100, highest 104 (so profit once reached
3%), current close 101 is at or below the trailing level
104 × 0.985 = 102.44, yet the replay engine emits no exit at all,
because the current candle's profit (1%) is below the trigger. -/
theorem c2_trailing_counterexample :
    check_exit_signal ⟨0, 101, some 50, none⟩ 100 104 = (false, "", 101) ∧
    (101 : ℚ) ≤ 104 * (1 - trailing_distance) ∧
    100 * (1 + trailing_trigger) ≤ (104 : ℚ) := by
  refine ⟨?_, by norm_num [trailing_distance], by norm_num [trailing_trigger]⟩
  norm_num [check_exit_signal, nanGt, rsi_overbought, tp_percent, sl_percent,
    trailing_trigger, trailing_distance]

/-- C2 amended: when no higher-priority exit fires, TRAILING_SL fires
iff the CURRENT candle's profit is at least trailing_trigger AND the
price is at or below highest × (1 − trailing_distance); the exit
price is that trailing level. -/
theorem c2_trailing_current_profit (row : Row) (e h : ℚ)
    (h1 : nanGt row.rsi rsi_overbought = false)
    (h2 : ¬ tp_percent ≤ (row.close - e) / e)
    (h3 : ¬ (row.close - e) / e ≤ -sl_percent) :
    check_exit_signal row e h = (true, "TRAILING_SL", h * (1 - trailing_distance)) ↔
      (trailing_trigger ≤ (row.close - e) / e ∧
        row.close ≤ h * (1 - trailing_distance)) := by
  simp only [check_exit_signal, h1, Bool.false_eq_true, if_false, if_neg h2, if_neg h3]
  split_ifs with h4 h5
  · simp [h4, h5]
  · simp [h4, h5]
  · simp [h4]

/-- C2 witness for the amended statement at a firing instance. -/
theorem c2_trailing_current_profit_witness :
    check_exit_signal ⟨0, 104, some 50, none⟩ 100 110 =
        (true, "TRAILING_SL", 110 * (1 - trailing_distance)) ↔
      (trailing_trigger ≤ ((104 : ℚ) - 100) / 100 ∧
        (104 : ℚ) ≤ 110 * (1 - trailing_distance)) :=
  c2_trailing_current_profit ⟨0, 104, some 50, none⟩ 100 110
    (by norm_num [nanGt, rsi_overbought])
    (by norm_num [tp_percent])
    (by norm_num [sl_percent])

end CryptoBacktest

namespace CryptoTradingBot

open CryptoBacktest

/-- One candle of check_exit_conditions keeps trailing active and
never lowers the recorded stop_loss. -/
theorem botStep_ratchet (p : BotPosition) (price rsi : ℚ)
    (hA : p.trailing_active = true) :
    (check_exit_conditions p price rsi).2.2.trailing_active = true ∧
    p.stop_loss ≤ (check_exit_conditions p price rsi).2.2.stop_loss := by
  simp only [check_exit_conditions]
  split_ifs <;> (simp_all; try linarith)

/-- Iterated version of botStep_ratchet over a candle list. -/
theorem botRun_ratchet (p : BotPosition) (l : List (ℚ × ℚ))
    (hA : p.trailing_active = true) :
    (botRun p l).trailing_active = true ∧ p.stop_loss ≤ (botRun p l).stop_loss := by
  induction l generalizing p with
  | nil => exact ⟨hA, le_refl _⟩
  | cons hd tl ih =>
      rw [botRun, List.foldl_cons]
      have h1 := botStep_ratchet p hd.1 hd.2 hA
      have h2 := ih ((check_exit_conditions p hd.1 hd.2).2.2) h1.1
      rw [botRun] at h2
      exact ⟨h2.1, le_trans h1.2 h2.2⟩

/-- C6: once trailing_active is true the stop_loss is non-decreasing
over any sequence of subsequent candles, and on a new high (with no
RSI exit) the candidate stop price × (1 − trailing_distance) is
applied exactly when strictly greater than the current stop_loss. -/
theorem c6_monotonic_ratchet (p : BotPosition) (l : List (ℚ × ℚ)) (price rsi : ℚ)
    (hA : p.trailing_active = true) :
    p.stop_loss ≤ (botRun p l).stop_loss ∧
    (¬ rsi_overbought < rsi → p.highest_price < price →
      (check_exit_conditions p price rsi).2.2.stop_loss =
        if p.stop_loss < price * (1 - trailing_distance)
        then price * (1 - trailing_distance) else p.stop_loss) := by
  refine ⟨(botRun_ratchet p l hA).2, ?_⟩
  intro hr hh
  have hact : ¬(trailing_trigger ≤ (price - p.entry_price) / p.entry_price ∧
      p.trailing_active = false) := by
    rintro ⟨-, hfalse⟩
    rw [hA] at hfalse
    exact absurd hfalse (by simp)
  simp only [check_exit_conditions, if_neg hr, if_neg hact, if_pos hh]
  simp only [hA, if_true]
  split_ifs <;> simp

/-- C6 witness: trailing active with stop 101.5, a new high 105
ratchets the stop to 105 × 0.985, and the stop never decreases over
the following candles. -/
theorem c6_monotonic_ratchet_witness :
    (⟨100, 203/2, 104, true⟩ : BotPosition).stop_loss ≤
      (botRun ⟨100, 203/2, 104, true⟩ [(105, 50), (103, 50)]).stop_loss ∧
    (check_exit_conditions ⟨100, 203/2, 104, true⟩ 105 50).2.2.stop_loss =
      (if (⟨100, 203/2, 104, true⟩ : BotPosition).stop_loss < 105 * (1 - trailing_distance)
       then 105 * (1 - trailing_distance)
       else (⟨100, 203/2, 104, true⟩ : BotPosition).stop_loss) :=
  ⟨(c6_monotonic_ratchet ⟨100, 203/2, 104, true⟩ [(105, 50), (103, 50)] 105 50 rfl).1,
   (c6_monotonic_ratchet ⟨100, 203/2, 104, true⟩ [(105, 50), (103, 50)] 105 50 rfl).2
      (by norm_num [rsi_overbought]) (by norm_num)⟩

end CryptoTradingBot

namespace CryptoBacktest

/-- C5: while current time is before paused_until the candle is
skipped entirely (no entry); at the first candle at or after
paused_until the pause is cleared and consecutive_losses reset to 0;
and a losing close that brings consecutive_losses to 3 sets
paused_until = close time + 24h. -/
theorem c5_circuit_breaker (s : BTState) (row : Row) (t : ℕ) :
    (s.paused_until = some t → row.timestamp < t → step s row = s) ∧
    (s.paused_until = some t → t ≤ row.timestamp → s.in_position = false →
      (step s row).paused_until = none ∧ (step s row).consecutive_losses = 0) ∧
    (s.paused_until = none → s.in_position = true → row.rsi ≠ none →
      ∀ r ep, check_exit_signal row s.entry_price
          (if s.highest_price < row.close then row.close else s.highest_price) =
            (true, r, ep) →
        net_pnl s.entry_price ep s.position_size < 0 →
        s.consecutive_losses = 2 →
        (step s row).paused_until = some (row.timestamp + 24)) := by
  refine ⟨?_, ?_, ?_⟩
  · intro hp hlt
    simp [step, hp, hlt]
  · intro hp hge hpos
    have hlt : ¬ row.timestamp < t := not_lt.mpr hge
    rcases hrsi : row.rsi with _ | v
    · simp [step, hp, hlt, stepCore, hrsi]
    · by_cases hent : check_entry_signal row
      · simp [step, hp, hlt, stepCore, hrsi, hpos, hent, enterUpdate]
      · simp [step, hp, hlt, stepCore, hrsi, hpos, hent]
  · intro hp hpos hrsi r ep hexit hnp hcl
    rcases hrsi' : row.rsi with _ | v
    · exact absurd hrsi' hrsi
    · simp only [step, hp]
      simp only [stepCore, hrsi', Option.isNone_some, Bool.false_eq_true, if_false,
        hpos]
      rw [hexit]
      simp [closeUpdate, hnp, hcl, max_consecutive_losses, pause_hours]

/-- C5 witness: an open position with two prior consecutive losses
closes at stop loss on the candle at hour 50; the engine pauses until
hour 74. -/
theorem c5_circuit_breaker_witness :
    (step ⟨1000, true, 100, 0, 10, 100, 2, none, []⟩ ⟨50, 90, some 50, none⟩).paused_until =
      some 74 :=
  (c5_circuit_breaker ⟨1000, true, 100, 0, 10, 100, 2, none, []⟩
      ⟨50, 90, some 50, none⟩ 0).2.2 rfl rfl (by simp) "SL" 97
    (by norm_num [check_exit_signal, nanGt, rsi_overbought, tp_percent, sl_percent])
    (by norm_num [net_pnl, pnl_usdt, pnl_percent, CryptoBacktest.commission,
      commission_rate])
    rfl

end CryptoBacktest

namespace CryptoBacktest

/-- C8 counterexample: a candle with undefined RSI arriving at the
pause deadline still clears the pause and resets the loss counter —
the RiskState is mutated even though the oscillator is undefined,
because the pause-expiry handling runs before the NaN check. -/
theorem c8_nan_counterexample :
    (⟨1000, false, 0, 0, 0, 0, 3, some 10, []⟩ : BTState).consecutive_losses = 3 ∧
    (⟨1000, false, 0, 0, 0, 0, 3, some 10, []⟩ : BTState).paused_until = some 10 ∧
    (⟨10, 100, none, none⟩ : Row).rsi = none ∧
    (step ⟨1000, false, 0, 0, 0, 0, 3, some 10, []⟩ ⟨10, 100, none, none⟩).consecutive_losses = 0 ∧
    (step ⟨1000, false, 0, 0, 0, 0, 3, some 10, []⟩ ⟨10, 100, none, none⟩).paused_until = none := by
  refine ⟨rfl, rfl, rfl, ?_, ?_⟩ <;>
    simp [step, stepCore]

/-- C8 amended: an undefined-oscillator candle produces no decision
and leaves the whole state unchanged when the engine is not paused or
the pause has not yet elapsed; but when the pause deadline has passed,
the pause-expiry handling (which precedes the NaN check) still clears
paused_until and resets consecutive_losses, leaving every other field
unchanged. -/
theorem c8_nan_candle (s : BTState) (row : Row) (hnan : row.rsi = none) :
    (s.paused_until = none → step s row = s) ∧
    (∀ t, s.paused_until = some t → row.timestamp < t → step s row = s) ∧
    (∀ t, s.paused_until = some t → t ≤ row.timestamp →
      step s row = { s with paused_until := none, consecutive_losses := 0 }) := by
  refine ⟨?_, ?_, ?_⟩
  · intro hp
    simp [step, hp, stepCore, hnan]
  · intro t hp hlt
    simp [step, hp, hlt]
  · intro t hp hge
    simp [step, hp, not_lt.mpr hge, stepCore, hnan]

/-- C8 witness: a NaN candle with no pause set leaves the state
unchanged. -/
theorem c8_nan_candle_witness :
    step ⟨1000, false, 0, 0, 0, 0, 1, none, []⟩ ⟨3, 100, none, none⟩ =
      ⟨1000, false, 0, 0, 0, 0, 1, none, []⟩ :=
  (c8_nan_candle ⟨1000, false, 0, 0, 0, 0, 1, none, []⟩ ⟨3, 100, none, none⟩ rfl).1 rfl

/-- Seven candles driving one symbol's run into three consecutive
stop-loss trades and a pause, ending with an entry candle inside the
pause window. -/
def dfLossStreak : List Row :=
  [⟨0, 100, some 25, some 2⟩, ⟨1, 90, some 50, some 1⟩,
   ⟨2, 100, some 25, some 2⟩, ⟨3, 90, some 50, some 1⟩,
   ⟨4, 100, some 25, some 2⟩, ⟨5, 90, some 50, some 1⟩,
   ⟨6, 100, some 25, some 2⟩]

/-- The same final entry candle, as the whole data of a second symbol. -/
def rowEntry : Row := ⟨6, 100, some 25, some 2⟩

/-- C3 counterexample: after three net-losing closes symbol A's run is
paused until hour 29 and its own entry candle at hour 6 is rejected,
yet the run for a second symbol containing the identical candle at
hour 6 accepts the entry — the counter and pause are loop-local per
symbol in the replay engine, not process-wide. -/
theorem c3_global_counterexample :
    (runState dfLossStreak).paused_until = some 29 ∧
    (runState dfLossStreak).consecutive_losses = 3 ∧
    (runState dfLossStreak).trades.length = 3 ∧
    (runState dfLossStreak).trades.all (fun tr => decide (tr.pnl < 0)) = true ∧
    (runState dfLossStreak).in_position = false ∧
    rowEntry.timestamp < 29 ∧
    (runState [rowEntry]).in_position = true := by
  norm_num [runState, step, stepCore, enterUpdate, closeUpdate, check_entry_signal,
    check_exit_signal, CryptoBacktest.calculate_position_size, net_pnl, pnl_usdt,
    pnl_percent, CryptoBacktest.commission, nanLt, nanGt, initState, dfLossStreak,
    rowEntry, risk_per_trade, sl_percent, leverage, rsi_oversold, rsi_overbought,
    volume_multiplier, tp_percent, trailing_trigger, trailing_distance,
    commission_rate, max_consecutive_losses, pause_hours, initial_balance,
    List.foldl]

/-- C3 amended: in the replay engine each symbol is backtested by an
independent run with its own loss counter and pause (a losing streak
on one symbol never suppresses another symbol's entries), while in the
live bot the counter and pause are one process-wide state whose gate
is checked before any entry regardless of symbol. -/
theorem c3_per_symbol_breaker :
    (∀ dfA dfB : List Row, run_full_backtest [dfA, dfB] =
        [run_backtest_symbol dfA, run_backtest_symbol dfB]) ∧
    CryptoTradingBot.close_risk_update ⟨2, none⟩ 5 (-1) = ⟨3, some 29⟩ ∧
    (CryptoTradingBot.is_paused ⟨3, some 29⟩ 6).1 = true ∧
    (CryptoTradingBot.is_paused ⟨3, some 29⟩ 28).1 = true ∧
    CryptoTradingBot.is_paused ⟨3, some 29⟩ 29 = (false, ⟨0, none⟩) ∧
    (runState [rowEntry]).in_position = true := by
  refine ⟨fun dfA dfB => rfl, ?_, ?_, ?_, ?_, ?_⟩
  · norm_num [CryptoTradingBot.close_risk_update, max_consecutive_losses, pause_hours]
  · norm_num [CryptoTradingBot.is_paused]
  · norm_num [CryptoTradingBot.is_paused]
  · norm_num [CryptoTradingBot.is_paused]
  · norm_num [runState, step, stepCore, enterUpdate, check_entry_signal, nanLt,
      nanGt, initState, rowEntry, risk_per_trade, rsi_oversold, volume_multiplier,
      initial_balance, List.foldl]

end CryptoBacktest
